import Mathlib

/-!
Verification of the PTY session manager in `src-tauri/src/pty.rs`.

The Rust module manages a registry (`Arc<Mutex<HashMap<String, PtyHandle>>>`)
of live pseudo-terminal sessions.  We embed it shallowly:

* the registry is an association list with unique keys, mirroring
  `HashMap<String, PtyHandle>` (insert overwrites, remove deletes);
* fallible OS calls (`openpty`, `spawn_command`, `try_clone_reader`,
  `take_writer`, `child.kill`, `writer.write_all`, `writer.flush`,
  `master.resize`) are modelled by oracle parameters of type
  `Except String Unit` supplied by the environment — the code under
  verification only decides how it reacts to those results;
* the per-session reader thread is modelled as a pure function from the
  finite sequence of `read` outcomes it observes to the list of events it
  emits, with the base64 encoding of the `base64` crate's STANDARD engine
  re-implemented and proved invertible;
* lock usage is modelled by per-operation action traces that transcribe, in
  source order, the acquisition and release of the registry mutex and the
  I/O performed in between.
-/

/-- A byte string: each element is a byte value (< 256 for real data). -/
abbrev Bytes := List Nat

/-- `portable_pty::PtySize` (pty.rs lines 30-35, 106-112, 175-180). -/
structure PtySize where
  rows : Nat
  cols : Nat
  pixel_width : Nat
  pixel_height : Nat
deriving DecidableEq

/-- The state of one `PtyHandle` (pty.rs lines 11-15): the master side of the
terminal (observable through its current size), and the writer to the child
(observable through the bytes written so far).  The child-process reference
carries no state that the registry operations observe. -/
structure PtyHandle where
  masterSize : PtySize
  writerData : Bytes
deriving DecidableEq

/-- The registry map `HashMap<String, PtyHandle>` as an association list with
unique keys (pty.rs line 9). -/
abbrev PtyMap := List (String × PtyHandle)

/-- Keys of the registry. -/
def mapKeys (m : PtyMap) : List String := m.map Prod.fst

/-- The intended registry invariant: at most one entry per id. -/
def keysNodup (m : PtyMap) : Prop := (mapKeys m).Nodup

/-- `HashMap::get` / `get_mut` lookup. -/
def mapGet (k : String) : PtyMap → Option PtyHandle
  | [] => none
  | (k₂, v) :: rest => if k₂ = k then some v else mapGet k rest

/-- `HashMap::insert`: overwrites the entry for `k` if present, otherwise
appends a new entry.  Mirrors the overwrite semantics used at pty.rs
lines 58-61 and 218-221. -/
def mapInsert (k : String) (v : PtyHandle) : PtyMap → PtyMap
  | [] => [(k, v)]
  | (k₂, w) :: rest => if k₂ = k then (k, v) :: rest else (k₂, w) :: mapInsert k v rest

/-- `HashMap::remove`: returns the removed handle (if any) and the remaining
map; an absent key leaves the map untouched (pty.rs line 121). -/
def mapRemove (k : String) (m : PtyMap) : Option PtyHandle × PtyMap :=
  match mapGet k m with
  | none => (none, m)
  | some v => (some v, m.filter (fun p => !(decide (p.1 = k))))

/-- `CommandBuilder` of `portable_pty` (program, argument list, working
directory, environment overrides). -/
structure CommandBuilder where
  program : String
  cmdArgs : List String
  cmdCwd : Option String
  cmdEnvs : List (String × String)
deriving DecidableEq

/-- `CommandBuilder::new(program)`. -/
def CommandBuilder.new (program : String) : CommandBuilder :=
  { program := program, cmdArgs := [], cmdCwd := none, cmdEnvs := [] }

/-- `CommandBuilder::args(xs)` — appends the given arguments. -/
def CommandBuilder.addArgs (c : CommandBuilder) (xs : List String) : CommandBuilder :=
  { c with cmdArgs := c.cmdArgs ++ xs }

/-- `CommandBuilder::arg(x)` — appends one argument. -/
def CommandBuilder.addArg (c : CommandBuilder) (x : String) : CommandBuilder :=
  { c with cmdArgs := c.cmdArgs ++ [x] }

/-- `CommandBuilder::cwd(d)`. -/
def CommandBuilder.setCwd (c : CommandBuilder) (d : String) : CommandBuilder :=
  { c with cmdCwd := some d }

/-- `CommandBuilder::env(k, v)`. -/
def CommandBuilder.setEnv (c : CommandBuilder) (k v : String) : CommandBuilder :=
  { c with cmdEnvs := c.cmdEnvs ++ [(k, v)] }

/-- Environment oracle for one spawn call: the results of the fallible OS
calls made by `spawn_pty` / `spawn_remote_pty`, and the value of the `SHELL`
environment variable (`none` models `std::env::var` failing). -/
structure SpawnEnv where
  openptyResult : Except String Unit
  spawnResult : Except String Unit
  cloneReaderResult : Except String Unit
  takeWriterResult : Except String Unit
  shellVar : Option String

/-- Observable outcome of a spawn call: the returned `Result`, the registry
after the call, whether the reader thread was started, the `PtySize` passed
to `openpty`, and the `CommandBuilder` passed to `spawn_command` (if the
call got that far). -/
structure SpawnOutcome where
  result : Except String Unit
  registry : PtyMap
  readerStarted : Bool
  openptyCalledWith : Option PtySize
  spawnedCmd : Option CommandBuilder

/-- `spawn_pty` (pty.rs lines 17-83).  Each `map_err(...)?` early return is a
`.error` branch; on full success the handle is inserted (overwriting any
previous entry for `id`) and the reader thread is started. -/
def spawn_pty (id cwd : String) (cols rows : Nat) (command : Option String)
    (env : SpawnEnv) (st : PtyMap) : SpawnOutcome :=
  let size : PtySize := { rows := rows, cols := cols, pixel_width := 0, pixel_height := 0 }
  match env.openptyResult with
  | .error e => ⟨.error e, st, false, some size, none⟩
  | .ok _ =>
    let shell := env.shellVar.getD "/bin/zsh"
    let cmd :=
      match command with
      | some c =>
        (CommandBuilder.new shell).addArgs
          ["-l", "-i", "-c", c ++ "; exec " ++ shell ++ " -l -i"]
      | none => (CommandBuilder.new shell).addArgs ["-l", "-i"]
    let cmd := (cmd.setCwd cwd).setEnv "TERM" "xterm-256color"
    match env.spawnResult with
    | .error e => ⟨.error e, st, false, some size, some cmd⟩
    | .ok _ =>
      match env.cloneReaderResult with
      | .error e => ⟨.error e, st, false, some size, some cmd⟩
      | .ok _ =>
        match env.takeWriterResult with
        | .error e => ⟨.error e, st, false, some size, some cmd⟩
        | .ok _ =>
          ⟨.ok (), mapInsert id { masterSize := size, writerData := [] } st,
            true, some size, some cmd⟩

/-- Oracle for one `write_pty` call: results of `writer.write_all` and
`writer.flush`. -/
structure WriteEnv where
  writeAllResult : Except String Unit
  flushResult : Except String Unit

/-- `write_pty` (pty.rs lines 85-95): absent id is a successful no-op;
otherwise the payload is written to the handle's writer and flushed, each
step propagating its error. -/
def write_pty (id : String) (data : Bytes) (io : WriteEnv) (st : PtyMap) :
    Except String Unit × PtyMap :=
  match mapGet id st with
  | none => (.ok (), st)
  | some pty =>
    match io.writeAllResult with
    | .error e => (.error e, st)
    | .ok _ =>
      let st₂ := mapInsert id { pty with writerData := pty.writerData ++ data } st
      match io.flushResult with
      | .error e => (.error e, st₂)
      | .ok _ => (.ok (), st₂)

/-- `resize_pty` (pty.rs lines 97-116): absent id is a successful no-op;
otherwise `master.resize` is applied with the new size, propagating its
error. -/
def resize_pty (id : String) (cols rows : Nat) (resizeResult : Except String Unit)
    (st : PtyMap) : Except String Unit × PtyMap :=
  match mapGet id st with
  | none => (.ok (), st)
  | some pty =>
    match resizeResult with
    | .error e => (.error e, st)
    | .ok _ =>
      (.ok (),
        mapInsert id
          { pty with masterSize :=
              { rows := rows, cols := cols, pixel_width := 0, pixel_height := 0 } } st)

/-- `kill_pty` (pty.rs lines 118-125): removes the handle; the result of
`pty.child.kill()` is discarded (`let _ = ...`), so the call returns `Ok`
whatever `killResult` is.  The `Bool` records whether a termination request
was sent. -/
def kill_pty (id : String) (killResult : Except String Unit) (st : PtyMap) :
    Except String Unit × PtyMap × Bool :=
  match mapRemove id st with
  | (none, st₂) => (.ok (), st₂, false)
  | (some _, st₂) =>
    match killResult with
    | _ => (.ok (), st₂, true)

/-- `get_active_pty_count` (pty.rs lines 127-131). -/
def get_active_pty_count (st : PtyMap) : Nat := st.length

/-- `kill_all_ptys` (pty.rs lines 133-140): drains the whole map, sending a
termination request to every drained handle's child and discarding each
result.  Returns the `Result`, the drained (empty) registry, and the ids
whose children received a termination request. -/
def kill_all_ptys (killResults : String → Except String Unit) (st : PtyMap) :
    Except String Unit × PtyMap × List String :=
  let killed := st.map fun p =>
    match killResults p.1 with
    | _ => p.1
  (.ok (), [], killed)

/-- `spawn_remote_pty` (pty.rs lines 157-239).  Builds the remote tmux
command string and the ssh invocation exactly as the source does, then
follows the same openpty/spawn/insert/reader sequence as `spawn_pty`. -/
def spawn_remote_pty (id ssh_host : String) (ssh_port : Nat) (ssh_user : String)
    (ssh_key_path : Option String) (remote_cwd tmux_session : String)
    (command : Option String) (cols rows : Nat) (env : SpawnEnv) (st : PtyMap) :
    SpawnOutcome :=
  let size : PtySize := { rows := rows, cols := cols, pixel_width := 0, pixel_height := 0 }
  match env.openptyResult with
  | .error e => ⟨.error e, st, false, some size, none⟩
  | .ok _ =>
    let tmux_cmd :=
      match command with
      | some cmd =>
        "tmux new-session -A -s \x27" ++ tmux_session ++ "\x27 -c \x27" ++
          remote_cwd ++ "\x27 \x27" ++ cmd ++ "\x27"
      | none =>
        "tmux new-session -A -s \x27" ++ tmux_session ++ "\x27 -c \x27" ++
          remote_cwd ++ "\x27"
    let cmd := CommandBuilder.new "ssh"
    let cmd := cmd.addArg "-t"
    let cmd := cmd.addArgs ["-o", "StrictHostKeyChecking=accept-new"]
    let cmd := cmd.addArgs ["-p", toString ssh_port]
    let cmd :=
      match ssh_key_path with
      | some key => cmd.addArgs ["-i", key]
      | none => cmd
    let cmd := cmd.addArg (ssh_user ++ "@" ++ ssh_host)
    let cmd := cmd.addArg tmux_cmd
    let cmd := cmd.setEnv "TERM" "xterm-256color"
    match env.spawnResult with
    | .error e => ⟨.error e, st, false, some size, some cmd⟩
    | .ok _ =>
      match env.cloneReaderResult with
      | .error e => ⟨.error e, st, false, some size, some cmd⟩
      | .ok _ =>
        match env.takeWriterResult with
        | .error e => ⟨.error e, st, false, some size, some cmd⟩
        | .ok _ =>
          ⟨.ok (), mapInsert id { masterSize := size, writerData := [] } st,
            true, some size, some cmd⟩

/-! ### Base64 (the `base64` crate's STANDARD engine, used at pty.rs lines 74 and 230) -/

/-- The standard base64 alphabet. -/
def b64Alphabet : List Char :=
  ['A', 'B', 'C', 'D', 'E', 'F', 'G', 'H', 'I', 'J', 'K', 'L', 'M',
   'N', 'O', 'P', 'Q', 'R', 'S', 'T', 'U', 'V', 'W', 'X', 'Y', 'Z',
   'a', 'b', 'c', 'd', 'e', 'f', 'g', 'h', 'i', 'j', 'k', 'l', 'm',
   'n', 'o', 'p', 'q', 'r', 's', 't', 'u', 'v', 'w', 'x', 'y', 'z',
   '0', '1', '2', '3', '4', '5', '6', '7', '8', '9', '+', '/']

/-- Element at position `n` of a character list (`'?'` out of range). -/
def b64Nth : Nat → List Char → Char
  | _, [] => '?'
  | 0, c :: _ => c
  | n + 1, _ :: rest => b64Nth n rest

/-- The alphabet character of a 6-bit value. -/
def b64CharOf (n : Nat) : Char := b64Nth n b64Alphabet

/-- Position of a character in a character list, if present. -/
def b64IndexOf (c : Char) : List Char → Option Nat
  | [] => none
  | d :: rest => if d = c then some 0 else (b64IndexOf c rest).map (· + 1)

/-- The 6-bit value of an alphabet character, if any. -/
def b64ValOf (c : Char) : Option Nat := b64IndexOf c b64Alphabet

/-- Standard base64 encoding with padding: 3 input bytes become 4 output
characters; a trailing 1- or 2-byte group is padded with `=`. -/
def base64encode : Bytes → List Char
  | [] => []
  | [b1] =>
    [b64CharOf (b1 / 4), b64CharOf (b1 % 4 * 16), '=', '=']
  | [b1, b2] =>
    [b64CharOf (b1 / 4), b64CharOf (b1 % 4 * 16 + b2 / 16),
     b64CharOf (b2 % 16 * 4), '=']
  | b1 :: b2 :: b3 :: rest =>
    b64CharOf (b1 / 4) :: b64CharOf (b1 % 4 * 16 + b2 / 16) ::
    b64CharOf (b2 % 16 * 4 + b3 / 64) :: b64CharOf (b3 % 64) :: base64encode rest

/-- Standard base64 decoding with padding, the left inverse of
`base64encode` on byte data. -/
def base64decode : List Char → Option Bytes
  | [] => some []
  | c1 :: c2 :: c3 :: c4 :: rest =>
    match b64ValOf c1, b64ValOf c2 with
    | some v1, some v2 =>
      if c3 = '=' then
        if c4 = '=' ∧ rest = [] then some [v1 * 4 + v2 / 16] else none
      else
        match b64ValOf c3 with
        | some v3 =>
          if c4 = '=' then
            if rest = [] then some [v1 * 4 + v2 / 16, v2 % 16 * 16 + v3 / 4] else none
          else
            match b64ValOf c4, base64decode rest with
            | some v4, some tail =>
              some ((v1 * 4 + v2 / 16) :: (v2 % 16 * 16 + v3 / 4) ::
                (v3 % 4 * 64 + v4) :: tail)
            | _, _ => none
        | none => none
    | _, _ => none
  | _ => none

/-! ### The reader loop (pty.rs lines 64-80 and 224-236) -/

/-- One outcome of `reader.read(&mut buf)`: `ok chunk` is `Ok(n)` with the
`n = chunk.length` bytes read (`Ok(0)` is end-of-stream), `err` is `Err(_)`. -/
inductive ReadResult where
  | ok (chunk : Bytes)
  | err
deriving DecidableEq

/-- An emitted application event: name and payload
(`app.emit(&format!("pty-output-{}", event_id), encoded)`). -/
structure Event where
  name : String
  payload : List Char
deriving DecidableEq

/-- The reader loop body: processes the successive `read` outcomes; on
`Ok(0)` or `Err(_)` it breaks, on `Ok(n)` it emits one event named
`pty-output-<id>` whose payload is the base64 encoding of the `n` bytes
read, then loops. -/
def reader_loop (event_id : String) : List ReadResult → List Event
  | [] => []
  | .err :: _ => []
  | .ok chunk :: rest =>
    if chunk.length = 0 then []
    else
      { name := "pty-output-" ++ event_id, payload := base64encode chunk } ::
        reader_loop event_id rest

/-! ### Registry map lemmas -/

/-- Number of registry entries whose key is `k`. -/
def countId (k : String) (m : PtyMap) : Nat := (mapKeys m).count k

theorem mapKeys_mapInsert (k : String) (v : PtyHandle) (m : PtyMap) :
    mapKeys (mapInsert k v m) =
      if k ∈ mapKeys m then mapKeys m else mapKeys m ++ [k] := by
  induction m with
  | nil => simp [mapInsert, mapKeys]
  | cons p rest ih =>
    obtain ⟨k₂, w⟩ := p
    by_cases hk : k₂ = k
    · subst hk
      simp [mapInsert, mapKeys]
    · simp only [mapInsert, if_neg hk, mapKeys, List.map_cons] at ih ⊢
      rw [ih]
      by_cases hm : k ∈ List.map Prod.fst rest
      · simp [hm, Ne.symm hk]
      · simp [hm, Ne.symm hk]

theorem keysNodup_mapInsert (k : String) (v : PtyHandle) (m : PtyMap)
    (h : keysNodup m) : keysNodup (mapInsert k v m) := by
  unfold keysNodup at h ⊢
  rw [mapKeys_mapInsert]
  by_cases hm : k ∈ mapKeys m
  · simpa [hm] using h
  · simp [hm, List.nodup_append, h]

theorem countId_mapInsert (k : String) (v : PtyHandle) (m : PtyMap)
    (h : keysNodup m) : countId k (mapInsert k v m) = 1 := by
  unfold countId
  rw [mapKeys_mapInsert]
  by_cases hm : k ∈ mapKeys m
  · simpa [hm] using List.count_eq_one_of_mem h hm
  · simp [hm, List.count_eq_zero_of_not_mem]

theorem keysNodup_filter (f : String × PtyHandle → Bool) (m : PtyMap)
    (h : keysNodup m) : keysNodup (m.filter f) := by
  unfold keysNodup mapKeys at h ⊢
  exact h.sublist ((List.filter_sublist m).map Prod.fst)

theorem keysNodup_mapRemove (k : String) (m : PtyMap)
    (h : keysNodup m) : keysNodup (mapRemove k m).2 := by
  unfold mapRemove
  cases mapGet k m with
  | none => exact h
  | some v => exact keysNodup_filter _ m h

/-! ### Base64 lemmas -/

theorem b64_table (n : Nat) (h : n < 64) :
    b64ValOf (b64CharOf n) = some n ∧ b64CharOf n ≠ '=' := by
  have H : ∀ m : Fin 64, b64ValOf (b64CharOf m.val) = some m.val ∧
      b64CharOf m.val ≠ '=' := by decide
  exact H ⟨n, h⟩

theorem base64_roundtrip (bs : Bytes) (h : ∀ b ∈ bs, b < 256) :
    base64decode (base64encode bs) = some bs := by
  induction bs using base64encode.induct with
  | case1 => rfl
  | case2 b1 =>
    have hb1 : b1 < 256 := h b1 (by simp)
    have h1 := b64_table (b1 / 4) (by omega)
    have h2 := b64_table (b1 % 4 * 16) (by omega)
    simp [base64encode, base64decode, h1.1, h2.1, h1.2, h2.2]
    omega
  | case3 b1 b2 =>
    have hb1 : b1 < 256 := h b1 (by simp)
    have hb2 : b2 < 256 := h b2 (by simp)
    have h1 := b64_table (b1 / 4) (by omega)
    have h2 := b64_table (b1 % 4 * 16 + b2 / 16) (by omega)
    have h3 := b64_table (b2 % 16 * 4) (by omega)
    simp [base64encode, base64decode, h1.1, h2.1, h3.1, h1.2, h2.2, h3.2]
    omega
  | case4 b1 b2 b3 rest ih =>
    have hb1 : b1 < 256 := h b1 (by simp)
    have hb2 : b2 < 256 := h b2 (by simp)
    have hb3 : b3 < 256 := h b3 (by simp)
    have hrest : ∀ b ∈ rest, b < 256 := fun b hb => h b (by simp [hb])
    have h1 := b64_table (b1 / 4) (by omega)
    have h2 := b64_table (b1 % 4 * 16 + b2 / 16) (by omega)
    have h3 := b64_table (b2 % 16 * 4 + b3 / 64) (by omega)
    have h4 := b64_table (b3 % 64) (by omega)
    simp [base64encode, base64decode, h1.1, h2.1, h3.1, h4.1, h1.2, h2.2, h3.2, h4.2,
      ih hrest]
    omega

/-! ### Lock-scope traces (pty.rs: `state.lock().unwrap()` guard lifetimes)

Rust `MutexGuard`s live until the end of their lexical scope.  In
`spawn_pty`/`spawn_remote_pty` the guard sits in its own block
(lines 58-61 and 218-221), so the insert is the only action under the lock;
in `write_pty`, `resize_pty`, `kill_pty`, `get_active_pty_count` and
`kill_all_ptys` the guard is bound at the top of the function body and is
dropped only when the function returns, so everything those bodies do
happens while the registry lock is held.  The traces below transcribe, in
source order, the atomic actions each operation performs. -/

/-- One atomic action of a lifecycle operation. -/
inductive LockAction where
  | lockAcquire
  | lockRelease
  | mapAccess
  | ioWrite
  | ioFlush
  | ioResize
  | childKill
  | osOpenpty
  | osSpawnChild
  | startReader
deriving DecidableEq

/-- Successful `spawn_pty` / `spawn_remote_pty` path (pty.rs 27-82, 172-238):
openpty and the child spawn happen before the lock is taken; the insert is
inside its own block; the reader thread starts after the guard is dropped. -/
def spawn_pty_trace : List LockAction :=
  [.osOpenpty, .osSpawnChild, .lockAcquire, .mapAccess, .lockRelease, .startReader]

/-- `write_pty` (pty.rs 85-95): the guard from line 87 lives to the end of
the function, so when the id is found, `write_all` and `flush` run while the
lock is held. -/
def write_pty_trace (found : Bool) : List LockAction :=
  if found then [.lockAcquire, .mapAccess, .ioWrite, .ioFlush, .lockRelease]
  else [.lockAcquire, .mapAccess, .lockRelease]

/-- `resize_pty` (pty.rs 97-116): the guard from line 104 lives to the end
of the function, so `master.resize` runs while the lock is held. -/
def resize_pty_trace (found : Bool) : List LockAction :=
  if found then [.lockAcquire, .mapAccess, .ioResize, .lockRelease]
  else [.lockAcquire, .mapAccess, .lockRelease]

/-- `kill_pty` (pty.rs 118-125): remove plus `child.kill()` under the lock. -/
def kill_pty_trace (found : Bool) : List LockAction :=
  if found then [.lockAcquire, .mapAccess, .childKill, .lockRelease]
  else [.lockAcquire, .mapAccess, .lockRelease]

/-- `get_active_pty_count` (pty.rs 127-131). -/
def count_trace : List LockAction := [.lockAcquire, .mapAccess, .lockRelease]

/-- `kill_all_ptys` (pty.rs 133-140): drain plus one `child.kill()` per
drained handle, all under the lock. -/
def kill_all_trace (n : Nat) : List LockAction :=
  [.lockAcquire, .mapAccess] ++ List.replicate n .childKill ++ [.lockRelease]

/-- Terminal I/O in the sense of the specification: writing to the child's
input channel, flushing it, or resizing the terminal control object. -/
def terminalIOAction : LockAction → Bool
  | .ioWrite => true
  | .ioFlush => true
  | .ioResize => true
  | _ => false

/-- Scans a trace keeping the current lock depth; `true` iff some terminal
I/O action occurs at positive lock depth. -/
def ioUnderLock : List LockAction → Nat → Bool
  | [], _ => false
  | .lockAcquire :: rest, depth => ioUnderLock rest (depth + 1)
  | .lockRelease :: rest, depth => ioUnderLock rest (depth - 1)
  | a :: rest, depth => (terminalIOAction a && decide (0 < depth)) || ioUnderLock rest depth

/-- `true` iff the trace performs terminal I/O while holding the lock. -/
def terminalIOWhileLocked (tr : List LockAction) : Bool := ioUnderLock tr 0

theorem ioUnderLock_childKill (n d : Nat) :
    ioUnderLock (List.replicate n LockAction.childKill ++ [LockAction.lockRelease]) d
      = false := by
  induction n generalizing d with
  | zero => rfl
  | succ k ih => simpa [List.replicate_succ, ioUnderLock, terminalIOAction] using ih d

/-! ### Spawn outcome lemmas -/

theorem spawn_pty_ok_registry (id cwd : String) (cols rows : Nat)
    (command : Option String) (env : SpawnEnv) (st : PtyMap)
    (h : (spawn_pty id cwd cols rows command env st).result = .ok ()) :
    (spawn_pty id cwd cols rows command env st).registry =
      mapInsert id
        { masterSize := { rows := rows, cols := cols, pixel_width := 0, pixel_height := 0 },
          writerData := [] } st := by
  obtain ⟨eo, so, co, tw, sh⟩ := env
  cases eo <;> cases so <;> cases co <;> cases tw <;>
    simp [spawn_pty] at h ⊢

theorem spawn_pty_registry_cases (id cwd : String) (cols rows : Nat)
    (command : Option String) (env : SpawnEnv) (st : PtyMap) :
    (spawn_pty id cwd cols rows command env st).registry = st ∨
    (spawn_pty id cwd cols rows command env st).registry =
      mapInsert id
        { masterSize := { rows := rows, cols := cols, pixel_width := 0, pixel_height := 0 },
          writerData := [] } st := by
  obtain ⟨eo, so, co, tw, sh⟩ := env
  cases eo <;> cases so <;> cases co <;> cases tw <;>
    simp [spawn_pty]

theorem spawn_remote_pty_ok_registry (id ssh_host : String) (ssh_port : Nat)
    (ssh_user : String) (ssh_key_path : Option String) (remote_cwd tmux_session : String)
    (command : Option String) (cols rows : Nat) (env : SpawnEnv) (st : PtyMap)
    (h : (spawn_remote_pty id ssh_host ssh_port ssh_user ssh_key_path remote_cwd
        tmux_session command cols rows env st).result = .ok ()) :
    (spawn_remote_pty id ssh_host ssh_port ssh_user ssh_key_path remote_cwd
        tmux_session command cols rows env st).registry =
      mapInsert id
        { masterSize := { rows := rows, cols := cols, pixel_width := 0, pixel_height := 0 },
          writerData := [] } st := by
  obtain ⟨eo, so, co, tw, sh⟩ := env
  cases eo <;> cases so <;> cases co <;> cases tw <;>
    simp [spawn_remote_pty] at h ⊢

theorem spawn_remote_pty_registry_cases (id ssh_host : String) (ssh_port : Nat)
    (ssh_user : String) (ssh_key_path : Option String) (remote_cwd tmux_session : String)
    (command : Option String) (cols rows : Nat) (env : SpawnEnv) (st : PtyMap) :
    (spawn_remote_pty id ssh_host ssh_port ssh_user ssh_key_path remote_cwd
        tmux_session command cols rows env st).registry = st ∨
    (spawn_remote_pty id ssh_host ssh_port ssh_user ssh_key_path remote_cwd
        tmux_session command cols rows env st).registry =
      mapInsert id
        { masterSize := { rows := rows, cols := cols, pixel_width := 0, pixel_height := 0 },
          writerData := [] } st := by
  obtain ⟨eo, so, co, tw, sh⟩ := env
  cases eo <;> cases so <;> cases co <;> cases tw <;>
    simp [spawn_remote_pty]

theorem write_pty_registry_cases (id : String) (data : Bytes) (io : WriteEnv)
    (st : PtyMap) :
    (write_pty id data io st).2 = st ∨
    ∃ pty : PtyHandle, (write_pty id data io st).2 =
      mapInsert id { pty with writerData := pty.writerData ++ data } st := by
  obtain ⟨w, f⟩ := io
  unfold write_pty
  cases mapGet id st with
  | none => simp
  | some pty =>
    cases w with
    | error e => simp
    | ok u => cases f <;> simp <;> exact Or.inr ⟨pty, rfl⟩

theorem resize_pty_registry_cases (id : String) (cols rows : Nat)
    (resizeResult : Except String Unit) (st : PtyMap) :
    (resize_pty id cols rows resizeResult st).2 = st ∨
    ∃ pty : PtyHandle, (resize_pty id cols rows resizeResult st).2 =
      mapInsert id
        { pty with masterSize :=
            { rows := rows, cols := cols, pixel_width := 0, pixel_height := 0 } } st := by
  unfold resize_pty
  cases mapGet id st with
  | none => simp
  | some pty =>
    cases resizeResult with
    | error e => simp
    | ok u => simp; exact Or.inr ⟨pty, rfl⟩

/-! ### Claim theorems -/

/-- Claim C1: for every spawn (local `spawn_pty` or remote `spawn_remote_pty`),
if `openpty` or `spawn_command` fails, the operation returns an error to the
caller and the registry is left unchanged: no handle is registered and no
reader loop is started. -/
theorem spawn_failure_leaves_registry_unchanged
    (id cwd ssh_host ssh_user remote_cwd tmux_session : String)
    (ssh_port cols rows : Nat) (ssh_key_path command : Option String)
    (env : SpawnEnv) (st : PtyMap)
    (h : (∃ e, env.openptyResult = .error e) ∨ (∃ e, env.spawnResult = .error e)) :
    ((∃ e, (spawn_pty id cwd cols rows command env st).result = .error e) ∧
     (spawn_pty id cwd cols rows command env st).registry = st ∧
     (spawn_pty id cwd cols rows command env st).readerStarted = false) ∧
    ((∃ e, (spawn_remote_pty id ssh_host ssh_port ssh_user ssh_key_path remote_cwd
        tmux_session command cols rows env st).result = .error e) ∧
     (spawn_remote_pty id ssh_host ssh_port ssh_user ssh_key_path remote_cwd
        tmux_session command cols rows env st).registry = st ∧
     (spawn_remote_pty id ssh_host ssh_port ssh_user ssh_key_path remote_cwd
        tmux_session command cols rows env st).readerStarted = false) := by
  rcases h with ⟨e, he⟩ | ⟨e, he⟩
  · exact ⟨⟨⟨e, by simp [spawn_pty, he]⟩, by simp [spawn_pty, he], by simp [spawn_pty, he]⟩,
      ⟨⟨e, by simp [spawn_remote_pty, he]⟩, by simp [spawn_remote_pty, he],
        by simp [spawn_remote_pty, he]⟩⟩
  · rcases ho : env.openptyResult with e₂ | u
    · exact ⟨⟨⟨e₂, by simp [spawn_pty, ho]⟩, by simp [spawn_pty, ho], by simp [spawn_pty, ho]⟩,
        ⟨⟨e₂, by simp [spawn_remote_pty, ho]⟩, by simp [spawn_remote_pty, ho],
          by simp [spawn_remote_pty, ho]⟩⟩
    · exact ⟨⟨⟨e, by simp [spawn_pty, ho, he]⟩, by simp [spawn_pty, ho, he],
          by simp [spawn_pty, ho, he]⟩,
        ⟨⟨e, by simp [spawn_remote_pty, ho, he]⟩, by simp [spawn_remote_pty, ho, he],
          by simp [spawn_remote_pty, ho, he]⟩⟩

/-- Witness for C1 at a concrete failing `openpty`. -/
theorem spawn_failure_leaves_registry_unchanged_witness :
    (∃ e, SpawnEnv.openptyResult ⟨.error "boom", .ok (), .ok (), .ok (), none⟩ = .error e) ∧
    ((spawn_pty "a" "/tmp" 80 24 none ⟨.error "boom", .ok (), .ok (), .ok (), none⟩
        []).registry = [] ∧
     (spawn_pty "a" "/tmp" 80 24 none ⟨.error "boom", .ok (), .ok (), .ok (), none⟩
        []).readerStarted = false) :=
  ⟨⟨"boom", rfl⟩,
    (spawn_failure_leaves_registry_unchanged "a" "/tmp" "h" "u" "/r" "s" 22 80 24 none none
      ⟨.error "boom", .ok (), .ok (), .ok (), none⟩ [] (Or.inl ⟨"boom", rfl⟩)).1.2⟩

/-- Claim C2: `write_pty`, `resize_pty` and `kill_pty` on an id absent from
the registry return success and leave the registry (hence every registered
handle) unchanged; no termination request is sent. -/
theorem absent_id_ops_are_noops (id : String) (st : PtyMap) (data : Bytes)
    (cols rows : Nat) (io : WriteEnv) (resizeResult killResult : Except String Unit)
    (h : mapGet id st = none) :
    write_pty id data io st = (.ok (), st) ∧
    resize_pty id cols rows resizeResult st = (.ok (), st) ∧
    kill_pty id killResult st = (.ok (), st, false) := by
  refine ⟨?_, ?_, ?_⟩ <;> simp [write_pty, resize_pty, kill_pty, mapRemove, h]

/-- Witness for C2 on an id absent from a nonempty registry. -/
theorem absent_id_ops_are_noops_witness :
    mapGet "a" [("b", ⟨⟨24, 80, 0, 0⟩, []⟩)] = none ∧
    (write_pty "a" [104, 105] ⟨.ok (), .ok ()⟩ [("b", ⟨⟨24, 80, 0, 0⟩, []⟩)] =
      (.ok (), [("b", ⟨⟨24, 80, 0, 0⟩, []⟩)]) ∧
     resize_pty "a" 120 40 (.ok ()) [("b", ⟨⟨24, 80, 0, 0⟩, []⟩)] =
      (.ok (), [("b", ⟨⟨24, 80, 0, 0⟩, []⟩)]) ∧
     kill_pty "a" (.ok ()) [("b", ⟨⟨24, 80, 0, 0⟩, []⟩)] =
      (.ok (), [("b", ⟨⟨24, 80, 0, 0⟩, []⟩)], false)) :=
  ⟨by decide,
    absent_id_ops_are_noops "a" [("b", ⟨⟨24, 80, 0, 0⟩, []⟩)] [104, 105] 120 40
      ⟨.ok (), .ok ()⟩ (.ok ()) (.ok ()) (by decide)⟩

/-- Claim C3: after `kill_all_ptys` the registry is empty and
`get_active_pty_count` returns 0; a termination request is sent to the child
of every drained handle. -/
theorem kill_all_empties_registry (killResults : String → Except String Unit)
    (st : PtyMap) :
    (kill_all_ptys killResults st).2.1 = [] ∧
    get_active_pty_count (kill_all_ptys killResults st).2.1 = 0 ∧
    (kill_all_ptys killResults st).2.2 = mapKeys st := by
  refine ⟨rfl, rfl, ?_⟩
  simp [kill_all_ptys, mapKeys]

/-- Claim C9: `kill_pty` and `kill_all_ptys` return success for every input
and registry state, whatever the results of the child termination requests
are — those results are discarded. -/
theorem kill_ops_never_error (id : String) (killResult : Except String Unit)
    (killResults : String → Except String Unit) (st : PtyMap) :
    (kill_pty id killResult st).1 = .ok () ∧
    (kill_all_ptys killResults st).1 = .ok () := by
  constructor
  · unfold kill_pty
    rcases mapRemove id st with ⟨o, m⟩
    cases o <;> simp
  · rfl

/-- Claim C10: neither spawn variant validates `cols`/`rows`: for every
input, including zero dimensions, the values are passed unchanged to
`openpty`, and when the OS calls succeed the spawn returns success — no
invalid-argument error is produced by this core. -/
theorem spawn_passes_dimensions_unchecked
    (id cwd ssh_host ssh_user remote_cwd tmux_session : String)
    (ssh_port cols rows : Nat) (ssh_key_path command : Option String)
    (env : SpawnEnv) (st : PtyMap)
    (hok : env.openptyResult = .ok () ∧ env.spawnResult = .ok () ∧
      env.cloneReaderResult = .ok () ∧ env.takeWriterResult = .ok ()) :
    (spawn_pty id cwd cols rows command env st).openptyCalledWith =
      some { rows := rows, cols := cols, pixel_width := 0, pixel_height := 0 } ∧
    (spawn_remote_pty id ssh_host ssh_port ssh_user ssh_key_path remote_cwd tmux_session
        command cols rows env st).openptyCalledWith =
      some { rows := rows, cols := cols, pixel_width := 0, pixel_height := 0 } ∧
    (spawn_pty id cwd cols rows command env st).result = .ok () ∧
    (spawn_remote_pty id ssh_host ssh_port ssh_user ssh_key_path remote_cwd tmux_session
        command cols rows env st).result = .ok () := by
  obtain ⟨h1, h2, h3, h4⟩ := hok
  refine ⟨?_, ?_, ?_, ?_⟩ <;> simp [spawn_pty, spawn_remote_pty, h1, h2, h3, h4]

/-- Witness for C10 at zero dimensions. -/
theorem spawn_passes_dimensions_unchecked_witness :
    (SpawnEnv.openptyResult ⟨.ok (), .ok (), .ok (), .ok (), none⟩ = .ok () ∧
     SpawnEnv.spawnResult ⟨.ok (), .ok (), .ok (), .ok (), none⟩ = .ok () ∧
     SpawnEnv.cloneReaderResult ⟨.ok (), .ok (), .ok (), .ok (), none⟩ = .ok () ∧
     SpawnEnv.takeWriterResult ⟨.ok (), .ok (), .ok (), .ok (), none⟩ = .ok ()) ∧
    ((spawn_pty "a" "/tmp" 0 0 none ⟨.ok (), .ok (), .ok (), .ok (), none⟩
        []).openptyCalledWith =
      some { rows := 0, cols := 0, pixel_width := 0, pixel_height := 0 } ∧
     (spawn_remote_pty "a" "host" 22 "user" none "/r" "s" none 0 0
        ⟨.ok (), .ok (), .ok (), .ok (), none⟩ []).openptyCalledWith =
      some { rows := 0, cols := 0, pixel_width := 0, pixel_height := 0 } ∧
     (spawn_pty "a" "/tmp" 0 0 none ⟨.ok (), .ok (), .ok (), .ok (), none⟩ []).result =
      .ok () ∧
     (spawn_remote_pty "a" "host" 22 "user" none "/r" "s" none 0 0
        ⟨.ok (), .ok (), .ok (), .ok (), none⟩ []).result = .ok ()) :=
  ⟨⟨rfl, rfl, rfl, rfl⟩,
    spawn_passes_dimensions_unchecked "a" "/tmp" "host" "user" "/r" "s" 22 0 0 none none
      ⟨.ok (), .ok (), .ok (), .ok (), none⟩ [] ⟨rfl, rfl, rfl, rfl⟩⟩

/-- Claim C4: after two consecutive successful spawns with the same id the
registry contains exactly one entry for that id (the second insert
overwrites the first), and the at-most-one-handle-per-id invariant is
preserved by every operation. -/
theorem double_spawn_single_entry
    (id cwd₁ cwd₂ : String) (c₁ r₁ c₂ r₂ : Nat) (cmd₁ cmd₂ : Option String)
    (env₁ env₂ : SpawnEnv) (st : PtyMap)
    (hnodup : keysNodup st)
    (h₁ : (spawn_pty id cwd₁ c₁ r₁ cmd₁ env₁ st).result = .ok ())
    (h₂ : (spawn_pty id cwd₂ c₂ r₂ cmd₂ env₂
        (spawn_pty id cwd₁ c₁ r₁ cmd₁ env₁ st).registry).result = .ok ()) :
    countId id (spawn_pty id cwd₂ c₂ r₂ cmd₂ env₂
        (spawn_pty id cwd₁ c₁ r₁ cmd₁ env₁ st).registry).registry = 1 ∧
    (∀ id₃ cwd₃ c₃ r₃ cmd₃ env₃ (m : PtyMap), keysNodup m →
      keysNodup (spawn_pty id₃ cwd₃ c₃ r₃ cmd₃ env₃ m).registry) ∧
    (∀ id₃ host₃ port₃ user₃ key₃ rcwd₃ sess₃ cmd₃ c₃ r₃ env₃ (m : PtyMap),
      keysNodup m →
      keysNodup (spawn_remote_pty id₃ host₃ port₃ user₃ key₃ rcwd₃ sess₃ cmd₃ c₃ r₃
        env₃ m).registry) ∧
    (∀ id₃ data₃ io₃ (m : PtyMap), keysNodup m →
      keysNodup (write_pty id₃ data₃ io₃ m).2) ∧
    (∀ id₃ c₃ r₃ res₃ (m : PtyMap), keysNodup m →
      keysNodup (resize_pty id₃ c₃ r₃ res₃ m).2) ∧
    (∀ id₃ res₃ (m : PtyMap), keysNodup m →
      keysNodup (kill_pty id₃ res₃ m).2.1) ∧
    (∀ res₃ (m : PtyMap), keysNodup m →
      keysNodup (kill_all_ptys res₃ m).2.1) := by
  refine ⟨?_, ?_, ?_, ?_, ?_, ?_, ?_⟩
  · rw [spawn_pty_ok_registry id cwd₂ c₂ r₂ cmd₂ env₂ _ h₂]
    exact countId_mapInsert id _ _
      (by rw [spawn_pty_ok_registry id cwd₁ c₁ r₁ cmd₁ env₁ st h₁]
          exact keysNodup_mapInsert id _ st hnodup)
  · intro id₃ cwd₃ c₃ r₃ cmd₃ env₃ m hm
    rcases spawn_pty_registry_cases id₃ cwd₃ c₃ r₃ cmd₃ env₃ m with h | h <;> rw [h]
    · exact hm
    · exact keysNodup_mapInsert id₃ _ m hm
  · intro id₃ host₃ port₃ user₃ key₃ rcwd₃ sess₃ cmd₃ c₃ r₃ env₃ m hm
    rcases spawn_remote_pty_registry_cases id₃ host₃ port₃ user₃ key₃ rcwd₃ sess₃ cmd₃
        c₃ r₃ env₃ m with h | h <;> rw [h]
    · exact hm
    · exact keysNodup_mapInsert id₃ _ m hm
  · intro id₃ data₃ io₃ m hm
    rcases write_pty_registry_cases id₃ data₃ io₃ m with h | ⟨pty, h⟩ <;> rw [h]
    · exact hm
    · exact keysNodup_mapInsert id₃ _ m hm
  · intro id₃ c₃ r₃ res₃ m hm
    rcases resize_pty_registry_cases id₃ c₃ r₃ res₃ m with h | ⟨pty, h⟩ <;> rw [h]
    · exact hm
    · exact keysNodup_mapInsert id₃ _ m hm
  · intro id₃ res₃ m hm
    have hrem := keysNodup_mapRemove id₃ m hm
    unfold kill_pty
    rcases hr : mapRemove id₃ m with ⟨o, m₂⟩
    rw [hr] at hrem
    cases o <;> simpa using hrem
  · intro res₃ m hm
    simp [kill_all_ptys, keysNodup, mapKeys]

/-- Witness for C4: two successful spawns of id `"a"` on an empty registry. -/
theorem double_spawn_single_entry_witness :
    keysNodup [] ∧
    (spawn_pty "a" "/tmp" 80 24 none ⟨.ok (), .ok (), .ok (), .ok (), none⟩ []).result =
      .ok () ∧
    (spawn_pty "a" "/home" 100 30 none ⟨.ok (), .ok (), .ok (), .ok (), none⟩
        (spawn_pty "a" "/tmp" 80 24 none ⟨.ok (), .ok (), .ok (), .ok (), none⟩
          []).registry).result = .ok () ∧
    countId "a" (spawn_pty "a" "/home" 100 30 none ⟨.ok (), .ok (), .ok (), .ok (), none⟩
        (spawn_pty "a" "/tmp" 80 24 none ⟨.ok (), .ok (), .ok (), .ok (), none⟩
          []).registry).registry = 1 :=
  ⟨List.nodup_nil, rfl, rfl,
    (double_spawn_single_entry "a" "/tmp" "/home" 80 24 100 30 none none
      ⟨.ok (), .ok (), .ok (), .ok (), none⟩ ⟨.ok (), .ok (), .ok (), .ok (), none⟩ []
      List.nodup_nil rfl rfl).1⟩

/-- One reader-loop iteration per chunk, in order. -/
theorem reader_loop_map_ok (id : String) (chunks : List Bytes)
    (hpos : ∀ c ∈ chunks, 0 < c.length) :
    reader_loop id (chunks.map ReadResult.ok) =
      chunks.map (fun c => { name := "pty-output-" ++ id, payload := base64encode c }) := by
  induction chunks with
  | nil => rfl
  | cons c rest ih =>
    have hc : ¬c.length = 0 := by
      have := hpos c (by simp)
      omega
    simp only [List.map_cons, reader_loop, hc, if_false]
    exact congrArg _ (ih fun d hd => hpos d (by simp [hd]))

/-- Claim C5: for every successful read of `n > 0` bytes the reader loop
publishes exactly one event scoped to the session id whose payload is the
base64 encoding of exactly those bytes (decoding recovers the chunk
byte-for-byte), in the exact order the chunks were read. -/
theorem reader_loop_base64_events (id : String) (chunks : List Bytes)
    (hpos : ∀ c ∈ chunks, 0 < c.length)
    (hbytes : ∀ c ∈ chunks, ∀ b ∈ c, b < 256) :
    reader_loop id (chunks.map ReadResult.ok) =
      chunks.map (fun c => { name := "pty-output-" ++ id, payload := base64encode c }) ∧
    ∀ c ∈ chunks, base64decode (base64encode c) = some c :=
  ⟨reader_loop_map_ok id chunks hpos,
    fun c hc => base64_roundtrip c (hbytes c hc)⟩

/-- Witness for C5 on two concrete chunks. -/
theorem reader_loop_base64_events_witness :
    (∀ c ∈ ([[72, 105], [10]] : List Bytes), 0 < c.length) ∧
    (∀ c ∈ ([[72, 105], [10]] : List Bytes), ∀ b ∈ c, b < 256) ∧
    (reader_loop "s1" (([[72, 105], [10]] : List Bytes).map ReadResult.ok) =
      ([[72, 105], [10]] : List Bytes).map
        (fun c => { name := "pty-output-" ++ "s1", payload := base64encode c }) ∧
     ∀ c ∈ ([[72, 105], [10]] : List Bytes),
       base64decode (base64encode c) = some c) :=
  ⟨by decide, by decide,
    reader_loop_base64_events "s1" [[72, 105], [10]] (by decide) (by decide)⟩

/-- Counterexample to C6: in `write_pty` and `resize_pty` the registry
`MutexGuard` lives to the end of the function body, so when the id is
registered, the write/flush (resp. resize) terminal I/O happens while the
registry lock is held — refuting "no terminal I/O is performed while
holding that lock" for the `get_mut`/`get` operations. -/
theorem write_resize_io_under_lock :
    terminalIOWhileLocked (write_pty_trace true) = true ∧
    terminalIOWhileLocked (resize_pty_trace true) = true := by decide

/-- Claim C6 (amended): the spawn insert and `get_active_pty_count` hold the
lock only around the map access with no terminal I/O under it, and the
unknown-id paths of write/resize, the kill paths and the drain perform no
terminal I/O under the lock (kill paths send child termination requests
under it); but `write_pty` and `resize_pty` on a registered id do perform
their terminal I/O while holding the registry lock. -/
theorem lock_io_discipline :
    terminalIOWhileLocked spawn_pty_trace = false ∧
    terminalIOWhileLocked count_trace = false ∧
    terminalIOWhileLocked (write_pty_trace false) = false ∧
    terminalIOWhileLocked (resize_pty_trace false) = false ∧
    (∀ found, terminalIOWhileLocked (kill_pty_trace found) = false) ∧
    (∀ n, terminalIOWhileLocked (kill_all_trace n) = false) ∧
    terminalIOWhileLocked (write_pty_trace true) = true ∧
    terminalIOWhileLocked (resize_pty_trace true) = true := by
  refine ⟨by decide, by decide, by decide, by decide, ?_, ?_, by decide, by decide⟩
  · intro found
    cases found <;> decide
  · intro n
    show ioUnderLock _ 0 = false
    simp only [kill_all_trace, List.cons_append, List.nil_append, ioUnderLock,
      terminalIOAction, Bool.false_and, Bool.false_or]
    exact ioUnderLock_childKill n 1

/-- Claim C7: with a startup command `c` the local child invocation is the
shell `s` (the `SHELL` variable, defaulting to `/bin/zsh`) with arguments
`-l -i -c "<c>; exec <s> -l -i"` — the command runs and then an interactive
login shell replaces it; with no startup command the arguments are
`-l -i`. -/
theorem local_spawn_command_shape (id cwd : String) (cols rows : Nat) (c : String)
    (env : SpawnEnv) (st : PtyMap) (h : env.openptyResult = .ok ()) :
    (spawn_pty id cwd cols rows (some c) env st).spawnedCmd =
      some { program := env.shellVar.getD "/bin/zsh",
             cmdArgs := ["-l", "-i", "-c",
               c ++ "; exec " ++ env.shellVar.getD "/bin/zsh" ++ " -l -i"],
             cmdCwd := some cwd,
             cmdEnvs := [("TERM", "xterm-256color")] } ∧
    (spawn_pty id cwd cols rows none env st).spawnedCmd =
      some { program := env.shellVar.getD "/bin/zsh",
             cmdArgs := ["-l", "-i"],
             cmdCwd := some cwd,
             cmdEnvs := [("TERM", "xterm-256color")] } := by
  rcases env with ⟨eo, so, co, tw, sh⟩
  cases eo with
  | error e => simp at h
  | ok u =>
    cases so <;> cases co <;> cases tw <;>
      simp [spawn_pty, CommandBuilder.new, CommandBuilder.addArgs, CommandBuilder.setCwd,
        CommandBuilder.setEnv]

/-- Witness for C7 with `SHELL=/bin/bash` and startup command `ls`. -/
theorem local_spawn_command_shape_witness :
    SpawnEnv.openptyResult ⟨.ok (), .ok (), .ok (), .ok (), some "/bin/bash"⟩ = .ok () ∧
    ((spawn_pty "a" "/tmp" 80 24 (some "ls")
        ⟨.ok (), .ok (), .ok (), .ok (), some "/bin/bash"⟩ []).spawnedCmd =
      some { program := "/bin/bash",
             cmdArgs := ["-l", "-i", "-c", "ls; exec /bin/bash -l -i"],
             cmdCwd := some "/tmp",
             cmdEnvs := [("TERM", "xterm-256color")] } ∧
     (spawn_pty "a" "/tmp" 80 24 none
        ⟨.ok (), .ok (), .ok (), .ok (), some "/bin/bash"⟩ []).spawnedCmd =
      some { program := "/bin/bash",
             cmdArgs := ["-l", "-i"],
             cmdCwd := some "/tmp",
             cmdEnvs := [("TERM", "xterm-256color")] }) :=
  ⟨rfl, local_spawn_command_shape "a" "/tmp" 80 24 "ls"
    ⟨.ok (), .ok (), .ok (), .ok (), some "/bin/bash"⟩ [] rfl⟩

/-- Claim C8: the remote child invocation is `ssh` with `-t`,
`-o StrictHostKeyChecking=accept-new`, `-p <port>`, `-i <key>` when a key
file is supplied, the `user@host` target, and the remote command
`tmux new-session -A -s '<session>' -c '<remoteCwd>'`, with the optional
startup command appended as a final quoted argument. -/
theorem remote_spawn_command_shape (id host user sess rcwd : String)
    (port cols rows : Nat) (c : String) (keyOpt : Option String)
    (env : SpawnEnv) (st : PtyMap) (h : env.openptyResult = .ok ()) :
    (spawn_remote_pty id host port user keyOpt rcwd sess (some c) cols rows
        env st).spawnedCmd =
      some { program := "ssh",
             cmdArgs := ["-t", "-o", "StrictHostKeyChecking=accept-new", "-p",
                 toString port]
               ++ (match keyOpt with | some k => ["-i", k] | none => [])
               ++ [user ++ "@" ++ host,
                   "tmux new-session -A -s \x27" ++ sess ++ "\x27 -c \x27" ++ rcwd ++
                     "\x27 \x27" ++ c ++ "\x27"],
             cmdCwd := none,
             cmdEnvs := [("TERM", "xterm-256color")] } ∧
    (spawn_remote_pty id host port user keyOpt rcwd sess none cols rows
        env st).spawnedCmd =
      some { program := "ssh",
             cmdArgs := ["-t", "-o", "StrictHostKeyChecking=accept-new", "-p",
                 toString port]
               ++ (match keyOpt with | some k => ["-i", k] | none => [])
               ++ [user ++ "@" ++ host,
                   "tmux new-session -A -s \x27" ++ sess ++ "\x27 -c \x27" ++ rcwd ++
                     "\x27"],
             cmdCwd := none,
             cmdEnvs := [("TERM", "xterm-256color")] } := by
  rcases env with ⟨eo, so, co, tw, sh⟩
  cases eo with
  | error e => simp at h
  | ok u =>
    cases keyOpt <;> cases so <;> cases co <;> cases tw <;>
      simp [spawn_remote_pty, CommandBuilder.new, CommandBuilder.addArgs,
        CommandBuilder.addArg, CommandBuilder.setEnv]

/-- Witness for C8 with a key file and startup command, port 2222. -/
theorem remote_spawn_command_shape_witness :
    SpawnEnv.openptyResult ⟨.ok (), .ok (), .ok (), .ok (), none⟩ = .ok () ∧
    ((spawn_remote_pty "a" "example.com" 2222 "deploy" (some "/home/k.pem") "/srv"
        "work" (some "htop") 80 24 ⟨.ok (), .ok (), .ok (), .ok (), none⟩
        []).spawnedCmd =
      some { program := "ssh",
             cmdArgs := ["-t", "-o", "StrictHostKeyChecking=accept-new", "-p",
                 toString 2222]
               ++ ["-i", "/home/k.pem"]
               ++ ["deploy" ++ "@" ++ "example.com",
                   "tmux new-session -A -s \x27" ++ "work" ++ "\x27 -c \x27" ++ "/srv" ++
                     "\x27 \x27" ++ "htop" ++ "\x27"],
             cmdCwd := none,
             cmdEnvs := [("TERM", "xterm-256color")] } ∧
     (spawn_remote_pty "a" "example.com" 2222 "deploy" (some "/home/k.pem") "/srv"
        "work" none 80 24 ⟨.ok (), .ok (), .ok (), .ok (), none⟩ []).spawnedCmd =
      some { program := "ssh",
             cmdArgs := ["-t", "-o", "StrictHostKeyChecking=accept-new", "-p",
                 toString 2222]
               ++ ["-i", "/home/k.pem"]
               ++ ["deploy" ++ "@" ++ "example.com",
                   "tmux new-session -A -s \x27" ++ "work" ++ "\x27 -c \x27" ++ "/srv" ++
                     "\x27"],
             cmdCwd := none,
             cmdEnvs := [("TERM", "xterm-256color")] }) :=
  ⟨rfl, remote_spawn_command_shape "a" "example.com" "deploy" "work" "/srv" 2222 80 24
    "htop" (some "/home/k.pem") ⟨.ok (), .ok (), .ok (), .ok (), none⟩ [] rfl⟩
